import Mathlib

/-
Verification of the batch audit-log core implemented by class `AuditLogger`
in src/middleware/auditMiddleware.js (lines 237-514).

The embedding is shallow: the buffer, the flags and the counters become a
Lean structure; `log`, `flush`, `shutdown`, `getStatus` and the constructor
become pure functions on that structure.  The ClickHouse client is modelled
as an oracle `sink : LogEntry → Bool` saying whether one
`clickhouse.insert('INSERT INTO audit_logs', [log])` call succeeds; the
per-call payloads that flush issues are returned as an explicit trace so
theorems can speak about how many Sink calls were made and what each one
carried.  Entries recorded by producers while a flush's I/O is in flight
are passed to `flushRun` as the `during` list: the JS code clears
`this.buffer` before its insert loop, so such entries land in the fresh
queue, exactly as `buffer := during` does here.  Wall-clock time
(`new Date().toISOString()`) enters `mkLogEntry` as the `now` argument.
-/

namespace AuditLog

/-- One buffered audit record, with the fields built by `AuditLogger.log`
(auditMiddleware.js lines 308-350). -/
structure LogEntry where
  event_time : String
  event_date : String
  agent_id : String
  agent_name : String
  agent_role : String
  agent_email : String
  action : String
  resource_type : String
  resource_id : String
  resource_name : String
  ip_address : String
  endpoint : String
  http_method : String
  status_code : Int
  response_time_ms : Int
  request_body : String
  response_body : String
  request_headers : String
  response_headers : String
  old_value : String
  new_value : String
  user_agent : String
  session_id : String
  request_id : String
  error_message : String
  metadata : String
deriving DecidableEq, Repr

/-- The `data` argument of `AuditLogger.log`: every field may be absent
(`undefined` in JS is `none` here). -/
structure LogData where
  agentId : Option String
  agentName : Option String
  agentRole : Option String
  agentEmail : Option String
  action : Option String
  resourceType : Option String
  resourceId : Option String
  resourceName : Option String
  ipAddress : Option String
  endpoint : Option String
  httpMethod : Option String
deriving DecidableEq, Repr

/-- The `options` argument of `AuditLogger.log`.  The payload options
(`requestBody`, `metadata`, ...) are modelled by their serialized string
form, since `toJSON` (lines 368-376) returns a string either way. -/
structure LogOptions where
  statusCode : Option Int
  responseTime : Option Int
  requestBody : Option String
  responseBody : Option String
  requestHeaders : Option String
  responseHeaders : Option String
  oldValue : Option String
  newValue : Option String
  userAgent : Option String
  sessionId : Option String
  requestId : Option String
  errorMessage : Option String
  metadata : Option String
deriving DecidableEq, Repr

/-- A `log` call that supplies none of the fields. -/
def emptyData : LogData :=
  ⟨none, none, none, none, none, none, none, none, none, none, none⟩

/-- An `options` object that supplies none of the fields. -/
def emptyOptions : LogOptions :=
  ⟨none, none, none, none, none, none, none, none, none, none, none, none, none⟩

/-- JS `x || d` on an optional string: `undefined` and the empty string are
falsy, every other string is kept. -/
def jsOrS (x : Option String) (d : String) : String :=
  match x with
  | none => d
  | some s => if s = "" then d else s

/-- JS `Number(x) || d` on an optional number: `undefined` becomes `NaN`
(falsy) and `0` is falsy, so both yield the default. -/
def jsOrN (x : Option Int) (d : Int) : Int :=
  match x with
  | none => d
  | some v => if v = 0 then d else v

/-- JS `.split('T')[0]`: the prefix of `s` before the first `T`, or all of
`s` when there is none. -/
def isoDatePart (s : String) : String :=
  ⟨s.data.takeWhile (fun c => c ≠ 'T')⟩

/-- The entry object built by `AuditLogger.log` before it is pushed onto
the buffer (lines 308-350).  `now` stands for
`new Date().toISOString()`; `event_date` takes what precedes the first
`T`, as `.split('T')[0]` does. -/
def mkLogEntry (data : LogData) (options : LogOptions) (now : String) : LogEntry where
  event_time := now
  event_date := isoDatePart now
  agent_id := jsOrS data.agentId "unknown"
  agent_name := jsOrS data.agentName "Unknown"
  agent_role := jsOrS data.agentRole "user"
  agent_email := jsOrS data.agentEmail ""
  action := jsOrS data.action "UNKNOWN"
  resource_type := jsOrS data.resourceType "unknown"
  resource_id := jsOrS data.resourceId "unknown"
  resource_name := jsOrS data.resourceName ""
  ip_address := jsOrS data.ipAddress "0.0.0.0"
  endpoint := jsOrS data.endpoint ""
  http_method := jsOrS data.httpMethod "GET"
  status_code := jsOrN options.statusCode 200
  response_time_ms := jsOrN options.responseTime 0
  request_body := jsOrS options.requestBody ""
  response_body := jsOrS options.responseBody ""
  request_headers := jsOrS options.requestHeaders "\x7b\x7d"
  response_headers := jsOrS options.responseHeaders "\x7b\x7d"
  old_value := jsOrS options.oldValue ""
  new_value := jsOrS options.newValue ""
  user_agent := jsOrS options.userAgent ""
  session_id := jsOrS options.sessionId ""
  request_id := jsOrS options.requestId ""
  error_message := jsOrS options.errorMessage ""
  metadata := jsOrS options.metadata "\x7b\x7d"

/-- The mutable state of the `AuditLogger` instance (constructor,
lines 238-264).  `timerActive` models whether the `setInterval` handle is
live. -/
structure LoggerState where
  buffer : List LogEntry
  BATCH_SIZE : Int
  FLUSH_INTERVAL : Int
  isInserting : Bool
  insertCount : Nat
  errorCount : Nat
  totalLogsInserted : Nat
  timerActive : Bool
deriving DecidableEq, Repr

/-- The constructor (lines 238-264): `BATCH_SIZE` and `FLUSH_INTERVAL` come
from `parseInt(process.env.X || default)`; the argument is the parsed
environment value, `none` when the variable is unset.  No bound is checked;
the auto-flush timer is started unconditionally. -/
def mkAuditLogger (batchSizeEnv flushIntervalEnv : Option Int) : LoggerState where
  buffer := []
  BATCH_SIZE := batchSizeEnv.getD 100
  FLUSH_INTERVAL := flushIntervalEnv.getD 5000
  isInserting := false
  insertCount := 0
  errorCount := 0
  totalLogsInserted := 0
  timerActive := true

/-- `AuditLogger.flush` (lines 384-439), together with the trace of Sink
calls it makes.  When the guard at line 386 passes, the code copies the
buffer into `logsToInsert`, clears the buffer, and then inserts the logs
ONE AT A TIME: each loop iteration awaits
`clickhouse.insert('INSERT INTO audit_logs', [log])` with a singleton
array, and its failure is caught by the inner `catch` at line 411, which
only logs and moves on.  Consequently `successCount` counts the accepted
entries, `insertCount` and `totalLogsInserted` advance on every pass, and
the outer `catch` (lines 424-435, the requeue/overflow handler) is not
reachable from a failed insert.  `during` holds the entries producers
record while the insert loop is awaiting; they land in the fresh queue. -/
def flushRun (s : LoggerState) (sink : LogEntry → Bool) (during : List LogEntry) :
    LoggerState × List (List LogEntry) :=
  if s.isInserting || s.buffer.isEmpty then (s, [])
  else
    let logsToInsert := s.buffer
    let calls := logsToInsert.map (fun log => [log])
    let successCount := (logsToInsert.filter sink).length
    ({ s with
        buffer := during
        insertCount := s.insertCount + 1
        totalLogsInserted := s.totalLogsInserted + successCount
        isInserting := false }, calls)

/-- `flush` with no concurrent producer activity during the Sink calls. -/
def flush (s : LoggerState) (sink : LogEntry → Bool) : LoggerState :=
  (flushRun s sink []).1

/-- One firing of the `setInterval` timer (lines 256-258): it just calls
`this.flush()`. -/
def timerTick (s : LoggerState) (sink : LogEntry → Bool) : LoggerState :=
  flush s sink

/-- The outer `catch` handler of `flush` (lines 424-435), stated on its own
because the per-entry `try`/`catch` inside the insert loop makes it dead
code for insert failures: `errorCount` is incremented, and the failed batch
is reinserted at the front only when the CURRENT buffer length is below
10000, otherwise the whole batch is dropped.  Returns the new buffer and
the new error count. -/
def requeueOnError (buffer logsToInsert : List LogEntry) (errorCount : Nat) :
    List LogEntry × Nat :=
  if buffer.length < 10000 then (logsToInsert ++ buffer, errorCount + 1)
  else (buffer, errorCount + 1)

/-- `AuditLogger.log` (lines 307-360): build the entry, push it on the
buffer tail, and when the buffer has reached `BATCH_SIZE` call `flush`
(un-awaited in JS — the caller's `log` returns while the inserts run).
The returned Bool records whether the size trigger fired. -/
def logRun (s : LoggerState) (data : LogData) (options : LogOptions) (now : String)
    (sink : LogEntry → Bool) : LoggerState × Bool :=
  let s1 := { s with buffer := s.buffer ++ [mkLogEntry data options now] }
  if (s1.buffer.length : Int) ≥ s1.BATCH_SIZE then (flush s1 sink, true)
  else (s1, false)

/-- `n` successive `log` calls with the same payload. -/
def recordN (sink : LogEntry → Bool) (data : LogData) (options : LogOptions)
    (now : String) : Nat → LoggerState → LoggerState
  | 0, s => s
  | n + 1, s => recordN sink data options now n (logRun s data options now sink).1

/-- `AuditLogger.shutdown` (lines 447-470): stop the timer
(`clearInterval`), then flush once if the buffer is non-empty.  The
statistics printing mutates nothing. -/
def shutdown (s : LoggerState) (sink : LogEntry → Bool) : LoggerState :=
  let s1 := { s with timerActive := false }
  if s1.buffer.isEmpty then s1 else flush s1 sink

/-- The numeric part of the snapshot returned by `AuditLogger.getStatus`
(lines 477-493).  The formatted `bufferUsage` and `successRate` strings are
floating-point display concerns and are not modelled. -/
structure Status where
  bufferSize : Nat
  maxBatchSize : Int
  flushInterval : Int
  isInserting : Bool
  totalBatches : Nat
  totalLogs : Nat
  failedBatches : Nat
deriving DecidableEq, Repr

/-- `AuditLogger.getStatus` (lines 477-493), numeric fields. -/
def getStatus (s : LoggerState) : Status where
  bufferSize := s.buffer.length
  maxBatchSize := s.BATCH_SIZE
  flushInterval := s.FLUSH_INTERVAL
  isInserting := s.isInserting
  totalBatches := s.insertCount
  totalLogs := s.totalLogsInserted
  failedBatches := s.errorCount

/-- A representative entry: what `log` buffers when nothing is supplied. -/
def baseEntry : LogEntry :=
  mkLogEntry emptyData emptyOptions "2026-01-01T00:00:00.000Z"

/-- Entries distinguishable by their `agent_id`, for order-tracking
scenarios. -/
def mkE (i : Nat) : LogEntry :=
  { baseEntry with agent_id := toString i }

/-- A Sink that accepts every insert. -/
def healthySink : LogEntry → Bool := fun _ => true

/-- A Sink that rejects every insert. -/
def failingSink : LogEntry → Bool := fun _ => false

/-- `logRun` restated with the appended state named once: the entry always
goes on the tail first, and the size check compares the grown length with
`BATCH_SIZE`. -/
theorem logRun_char (s : LoggerState) (d : LogData) (o : LogOptions) (now : String)
    (sink : LogEntry → Bool) :
    logRun s d o now sink =
      if ((s.buffer.length : Int) + 1 ≥ s.BATCH_SIZE) then
        (flush { s with buffer := s.buffer ++ [mkLogEntry d o now] } sink, true)
      else ({ s with buffer := s.buffer ++ [mkLogEntry d o now] }, false) := by
  unfold logRun
  norm_num

/-- Claim C5: when a flush is already in progress or the queue is empty,
`flush` returns at once: the state is unchanged and no Sink call is made
(guard at auditMiddleware.js line 386), whatever the Sink behaviour and
whatever producers would have done during a Sink call. -/
theorem flush_noop_when_busy_or_empty (s : LoggerState) (sink : LogEntry → Bool)
    (during : List LogEntry) (h : s.isInserting = true ∨ s.buffer = []) :
    flushRun s sink during = (s, []) := by
  unfold flushRun
  rcases h with h | h <;> simp [h]

/-- Witness for `flush_noop_when_busy_or_empty`: the freshly constructed
logger has an empty queue, and flushing it changes nothing and calls the
Sink zero times. -/
theorem flush_noop_when_busy_or_empty_witness :
    ((mkAuditLogger none none).isInserting = true ∨ (mkAuditLogger none none).buffer = []) ∧
    flushRun (mkAuditLogger none none) healthySink [baseEntry] = (mkAuditLogger none none, []) :=
  ⟨Or.inr rfl, flush_noop_when_busy_or_empty _ _ _ (Or.inr rfl)⟩

/-- Claim C9, counterexample: the constructor performs no validation.
`batchSize = 0` and `flushInterval = -1` violate both required bounds, yet
the values are installed verbatim and the recurring flush timer is started
(timerActive = true) — the configuration is not rejected. -/
theorem constructor_accepts_invalid_config :
    (mkAuditLogger (some 0) (some (-1))).BATCH_SIZE = 0 ∧
    (mkAuditLogger (some 0) (some (-1))).FLUSH_INTERVAL = -1 ∧
    (mkAuditLogger (some 0) (some (-1))).timerActive = true ∧
    ¬(1 ≤ (mkAuditLogger (some 0) (some (-1))).BATCH_SIZE) ∧
    ¬(0 < (mkAuditLogger (some 0) (some (-1))).FLUSH_INTERVAL) := by
  refine ⟨rfl, rfl, rfl, ?_, ?_⟩ <;> decide

/-- Claim C9, amended: the constructor validates nothing — for every
environment configuration, parsed batch size and flush interval (defaults
100 and 5000 when unset) are used as supplied, and the recurring flush
timer is begun unconditionally. -/
theorem constructor_no_validation (b f : Option Int) :
    (mkAuditLogger b f).BATCH_SIZE = b.getD 100 ∧
    (mkAuditLogger b f).FLUSH_INTERVAL = f.getD 5000 ∧
    (mkAuditLogger b f).timerActive = true :=
  ⟨rfl, rfl, rfl⟩

/-- Claim C10, counterexample: with every field missing, the buffered
entry's `metadata`, `request_headers` and `response_headers` default to
the two-character string "\x7b\x7d" (lines 337, 338 and 349 pass
'\x7b\x7d' to `toJSON`), not to the empty string the claim's
"empty string otherwise" requires. -/
theorem default_entry_metadata_not_empty :
    (mkLogEntry emptyData emptyOptions "2026-01-01T00:00:00.000Z").metadata = "\x7b\x7d" ∧
    (mkLogEntry emptyData emptyOptions "2026-01-01T00:00:00.000Z").request_headers = "\x7b\x7d" ∧
    (mkLogEntry emptyData emptyOptions "2026-01-01T00:00:00.000Z").response_headers = "\x7b\x7d" ∧
    "\x7b\x7d" ≠ "" := by
  refine ⟨rfl, rfl, rfl, ?_⟩
  decide

/-- Claim C10, amended: `log` itself substitutes a fixed default for every
missing field — agent_id "unknown", agent_name "Unknown", agent_role
"user", action "UNKNOWN", resource_type and resource_id "unknown",
ip_address "0.0.0.0", http_method "GET", status_code 200,
response_time_ms 0, "\x7b\x7d" for the request_headers, response_headers
and metadata JSON fields, and the empty string for every other textual
field — so no buffered entry has an undefined field. -/
theorem log_defaults_missing_fields (d : LogData) (o : LogOptions) (now : String) :
    (d.agentId = none → (mkLogEntry d o now).agent_id = "unknown") ∧
    (d.agentName = none → (mkLogEntry d o now).agent_name = "Unknown") ∧
    (d.agentRole = none → (mkLogEntry d o now).agent_role = "user") ∧
    (d.agentEmail = none → (mkLogEntry d o now).agent_email = "") ∧
    (d.action = none → (mkLogEntry d o now).action = "UNKNOWN") ∧
    (d.resourceType = none → (mkLogEntry d o now).resource_type = "unknown") ∧
    (d.resourceId = none → (mkLogEntry d o now).resource_id = "unknown") ∧
    (d.resourceName = none → (mkLogEntry d o now).resource_name = "") ∧
    (d.ipAddress = none → (mkLogEntry d o now).ip_address = "0.0.0.0") ∧
    (d.endpoint = none → (mkLogEntry d o now).endpoint = "") ∧
    (d.httpMethod = none → (mkLogEntry d o now).http_method = "GET") ∧
    (o.statusCode = none → (mkLogEntry d o now).status_code = 200) ∧
    (o.responseTime = none → (mkLogEntry d o now).response_time_ms = 0) ∧
    (o.requestBody = none → (mkLogEntry d o now).request_body = "") ∧
    (o.responseBody = none → (mkLogEntry d o now).response_body = "") ∧
    (o.requestHeaders = none → (mkLogEntry d o now).request_headers = "\x7b\x7d") ∧
    (o.responseHeaders = none → (mkLogEntry d o now).response_headers = "\x7b\x7d") ∧
    (o.oldValue = none → (mkLogEntry d o now).old_value = "") ∧
    (o.newValue = none → (mkLogEntry d o now).new_value = "") ∧
    (o.userAgent = none → (mkLogEntry d o now).user_agent = "") ∧
    (o.sessionId = none → (mkLogEntry d o now).session_id = "") ∧
    (o.requestId = none → (mkLogEntry d o now).request_id = "") ∧
    (o.errorMessage = none → (mkLogEntry d o now).error_message = "") ∧
    (o.metadata = none → (mkLogEntry d o now).metadata = "\x7b\x7d") := by
  refine ⟨?_, ?_, ?_, ?_, ?_, ?_, ?_, ?_, ?_, ?_, ?_, ?_, ?_, ?_, ?_, ?_, ?_, ?_, ?_, ?_,
    ?_, ?_, ?_, ?_⟩ <;>
    (intro h; simp [mkLogEntry, jsOrS, jsOrN, h])

/-- Witness for `log_defaults_missing_fields`: on the all-missing input the
agent_id hypothesis holds and the default is produced. -/
theorem log_defaults_missing_fields_witness :
    emptyData.agentId = none ∧
    (mkLogEntry emptyData emptyOptions "2026-01-01T00:00:00.000Z").agent_id = "unknown" :=
  ⟨rfl, (log_defaults_missing_fields emptyData emptyOptions "2026-01-01T00:00:00.000Z").1 rfl⟩

/-- Claim C6: `log` always appends the built entry to the tail of the
queue and is total (it never fails); the size trigger fires exactly when
the grown queue length has reached `BATCH_SIZE`; and because the triggered
flush is guarded, a `log` that fires the trigger while an insert loop is
already in flight still leaves the appended entry in the queue. -/
theorem log_appends_and_triggers (s : LoggerState) (d : LogData) (o : LogOptions)
    (now : String) (sink : LogEntry → Bool) :
    ((logRun s d o now sink).2 = true ↔ ((s.buffer.length : Int) + 1 ≥ s.BATCH_SIZE)) ∧
    ((logRun s d o now sink).2 = false →
      (logRun s d o now sink).1 = { s with buffer := s.buffer ++ [mkLogEntry d o now] }) ∧
    (s.isInserting = true →
      (logRun s d o now sink).1.buffer = s.buffer ++ [mkLogEntry d o now]) := by
  rw [logRun_char]
  by_cases hc : ((s.buffer.length : Int) + 1 ≥ s.BATCH_SIZE)
  · refine ⟨by simp [hc], by simp [hc], ?_⟩
    intro hbusy
    simp [hc, flush, flushRun, hbusy]
  · refine ⟨by simp [hc], by simp [hc], ?_⟩
    intro _
    simp [hc]

/-- A logger with batch size 2, one queued entry and an insert loop in
flight. -/
def c6State : LoggerState :=
  { mkAuditLogger (some 2) none with buffer := [baseEntry], isInserting := true }

/-- Witness for `log_appends_and_triggers`: with batch size 2 and one
queued entry, a further `log` fires the size trigger, and since an insert
loop is in flight the appended entry stays queued. -/
theorem log_appends_and_triggers_witness :
    c6State.isInserting = true ∧
    (logRun c6State emptyData emptyOptions "t" healthySink).2 = true ∧
    (logRun c6State emptyData emptyOptions "t" healthySink).1.buffer =
      c6State.buffer ++ [mkLogEntry emptyData emptyOptions "t"] :=
  ⟨rfl,
   (log_appends_and_triggers c6State emptyData emptyOptions "t" healthySink).1.mpr (by decide),
   (log_appends_and_triggers c6State emptyData emptyOptions "t" healthySink).2.2 rfl⟩

/-- Claim C8: `shutdown` cancels the recurring timer and then performs the
single bounded drain attempt (`if (this.buffer.length > 0) await
this.flush()`); when no insert loop is in flight, the queue holds at most
`BATCH_SIZE` entries and the Sink accepts everything, every queued entry
is delivered and the queue is empty when `shutdown` returns. -/
theorem shutdown_drains (s : LoggerState) (sink : LogEntry → Bool)
    (hbusy : s.isInserting = false)
    (_hsize : (s.buffer.length : Int) ≤ s.BATCH_SIZE)
    (hsink : ∀ e, sink e = true) :
    (shutdown s sink).timerActive = false ∧
    (shutdown s sink).buffer = [] ∧
    (shutdown s sink).totalLogsInserted = s.totalLogsInserted + s.buffer.length ∧
    (shutdown s sink).errorCount = s.errorCount := by
  have hfilter : s.buffer.filter sink = s.buffer :=
    List.filter_eq_self.mpr (fun a _ => hsink a)
  unfold shutdown flush flushRun
  by_cases hb : s.buffer.isEmpty
  · have hnil : s.buffer = [] := by
      simpa using hb
    simp [hb, hnil]
  · simp [hb, hbusy, hfilter]

/-- A two-entry queue on an idle logger, for the shutdown drain witness. -/
def c8State : LoggerState := { mkAuditLogger none none with buffer := [mkE 1, mkE 2] }

/-- Witness for `shutdown_drains`: two queued entries (at most the batch
size of 100), healthy Sink — both are delivered and the queue is left
empty with the timer cancelled. -/
theorem shutdown_drains_witness :
    (c8State.isInserting = false ∧ (c8State.buffer.length : Int) ≤ c8State.BATCH_SIZE) ∧
    ((shutdown c8State healthySink).timerActive = false ∧
     (shutdown c8State healthySink).buffer = [] ∧
     (shutdown c8State healthySink).totalLogsInserted =
       c8State.totalLogsInserted + c8State.buffer.length ∧
     (shutdown c8State healthySink).errorCount = c8State.errorCount) :=
  ⟨⟨rfl, by decide⟩, shutdown_drains c8State healthySink rfl (by decide) (fun _ => rfl)⟩

/-- Splitting a sequence of `log` calls: running `m + n` calls is running
`m` and then `n` more from the reached state. -/
theorem recordN_add (sink : LogEntry → Bool) (d : LogData) (o : LogOptions) (now : String)
    (m n : Nat) (s : LoggerState) :
    recordN sink d o now (m + n) s = recordN sink d o now n (recordN sink d o now m s) := by
  induction m generalizing s with
  | zero =>
    rw [Nat.zero_add]
    rfl
  | succ k ih =>
    have h1 : k + 1 + n = (k + n) + 1 := by omega
    rw [h1]
    exact ih ((logRun s d o now sink).1)

/-- The fixed clock used by the rapid-recording scenario. -/
def tstamp : String := "2026-01-01T00:00:00.000Z"

/-- The state after 250 rapid `log` calls on a fresh logger (batch size
100) against a healthy Sink. -/
def c7AfterRecords : LoggerState :=
  recordN healthySink emptyData emptyOptions tstamp 250 (mkAuditLogger none none)

/-- The state after the subsequent timer-triggered flush. -/
def c7Final : LoggerState := timerTick c7AfterRecords healthySink

/-- The state after the first size-triggered flush of the scenario. -/
def E1 : LoggerState :=
  { buffer := [], BATCH_SIZE := 100, FLUSH_INTERVAL := 5000, isInserting := false,
    insertCount := 1, errorCount := 0, totalLogsInserted := 100, timerActive := true }

/-- The state after the second size-triggered flush of the scenario. -/
def E2 : LoggerState := { E1 with insertCount := 2, totalLogsInserted := 200 }

/-- The state after the trailing 50 records of the scenario. -/
def E3 : LoggerState := { E2 with buffer := List.replicate 50 baseEntry }

set_option maxRecDepth 4000 in
theorem c7_chunk1 :
    recordN healthySink emptyData emptyOptions tstamp 100 (mkAuditLogger none none) = E1 := by
  decide

set_option maxRecDepth 4000 in
theorem c7_chunk2 : recordN healthySink emptyData emptyOptions tstamp 100 E1 = E2 := by
  decide

set_option maxRecDepth 4000 in
theorem c7_chunk3 : recordN healthySink emptyData emptyOptions tstamp 50 E2 = E3 := by
  decide

/-- The 250-record run reaches exactly the state with 2 batches flushed,
200 entries delivered and 50 entries still queued. -/
theorem c7AfterRecords_eq : c7AfterRecords = E3 := by
  have h : (250 : Nat) = 100 + (100 + 50) := by norm_num
  unfold c7AfterRecords
  rw [h, recordN_add, c7_chunk1, recordN_add, c7_chunk2, c7_chunk3]

/-- Claim C7: recording 250 entries against a healthy Sink fires exactly
two size-triggered flushes of 100 entries each (2 batches, 200 delivered,
50 still queued, no failures), and the following timer-triggered flush
delivers the remaining 50, leaving a status of 3 batches, 250 delivered,
queue length 0. -/
theorem scenario_250_entries :
    c7AfterRecords.insertCount = 2 ∧
    c7AfterRecords.totalLogsInserted = 200 ∧
    c7AfterRecords.buffer.length = 50 ∧
    c7AfterRecords.errorCount = 0 ∧
    (getStatus c7Final).totalBatches = 3 ∧
    (getStatus c7Final).totalLogs = 250 ∧
    (getStatus c7Final).bufferSize = 0 := by
  have hfin : c7Final = timerTick E3 healthySink := by
    unfold c7Final
    rw [c7AfterRecords_eq]
  rw [c7AfterRecords_eq, hfin]
  decide

/-- A fresh logger with a two-entry batch queued, flushed against a Sink
that accepts the second entry and rejects the first. -/
def c1Run : LoggerState × List (List LogEntry) :=
  flushRun { mkAuditLogger none none with buffer := [mkE 1, mkE 2] }
    (fun e => e.agent_id == "2") []

/-- Claim C1, failing run: for the two-entry batch the flush makes TWO
Sink calls, each carrying a singleton array rather than the batch; with
the first insert rejected and the second accepted the pass still counts
the batch as inserted (`insertCount` = 1) with only 1 of 2 entries
delivered, no error is recorded, and the rejected entry is gone — a
partial-batch acknowledgment, not an all-or-nothing batch write. -/
theorem flush_inserts_per_entry :
    c1Run.2 = [[mkE 1], [mkE 2]] ∧
    c1Run.2.length = 2 ∧
    c1Run.1.insertCount = 1 ∧
    c1Run.1.totalLogsInserted = 1 ∧
    c1Run.1.errorCount = 0 ∧
    c1Run.1.buffer = [] := by
  decide

/-- A fresh logger holding a 100-entry batch. -/
def c2Start : LoggerState :=
  { mkAuditLogger none none with buffer := List.replicate 100 baseEntry }

/-- The state after a flush against the failing Sink. -/
def c2After1 : LoggerState := flush c2Start failingSink

/-- The state after a second flush, now against a healthy Sink. -/
def c2After2 : LoggerState := flush c2After1 healthySink

/-- Claim C2, failing run: when every insert of the 100-entry batch is
rejected on the first attempt, the failed-batch counter stays 0 (the
per-entry catch swallows the failures), the pass is counted as batch
number 1 with 0 entries delivered, and the batch is NOT requeued — the
second, healthy attempt finds an empty queue and is a no-op, so all 100
entries are lost instead of being delivered. -/
theorem fail_then_heal_loses_batch :
    c2After1.errorCount = 0 ∧
    c2After1.insertCount = 1 ∧
    c2After1.totalLogsInserted = 0 ∧
    c2After1.buffer = [] ∧
    c2After2 = c2After1 := by
  decide

/-- One queued entry flushed against the permanently failing Sink. -/
def c3After : LoggerState :=
  flush { mkAuditLogger none none with buffer := [mkE 1] } failingSink

/-- Claim C3, failing run: under a permanently failing Sink no
failure-reinsertion ever happens — the failed entry is dropped at once
with no drop recorded (`errorCount` stays 0); and the requeue handler
itself (lines 424-435), were it reached, checks the PRE-reinsertion
length, so a live queue of 9999 entries plus a failed batch of 100 grows
to 10099 entries, exceeding the 10000 ceiling. -/
theorem overflow_ceiling_not_enforced :
    c3After.buffer = [] ∧
    c3After.errorCount = 0 ∧
    c3After.insertCount = 1 ∧
    (requeueOnError (List.replicate 9999 baseEntry) (List.replicate 100 baseEntry) 0).1.length
      = 10099 ∧
    10000 <
      (requeueOnError (List.replicate 9999 baseEntry) (List.replicate 100 baseEntry) 0).1.length
      := by
  have hguard : (List.replicate 9999 baseEntry).length < 10000 := by
    rw [List.length_replicate]
    norm_num
  have hq : requeueOnError (List.replicate 9999 baseEntry) (List.replicate 100 baseEntry) 0
      = (List.replicate 100 baseEntry ++ List.replicate 9999 baseEntry, 1) := by
    unfold requeueOnError
    rw [if_pos hguard]
  have hlen : (List.replicate 100 baseEntry ++ List.replicate 9999 baseEntry).length = 10099 := by
    rw [List.length_append, List.length_replicate, List.length_replicate]
  refine ⟨by decide, by decide, by decide, ?_, ?_⟩ <;> rw [hq]
  · exact hlen
  · rw [hlen]
    norm_num

/-- A fresh logger holding the batch [e1..e10], flushed against the
failing Sink while producers record e11 during the insert loop. -/
def c4AfterFail : LoggerState :=
  (flushRun { mkAuditLogger none none with buffer := (List.range 10).map (fun i => mkE (i + 1)) }
    failingSink [mkE 11]).1

/-- Claim C4, failing run: after the failed Sink call the queue holds only
the entry recorded during the failure — the failed batch e1..e10 was never
reinserted (and no failure was even counted) — so the subsequent healthy
flush makes a single Sink call carrying e11 and delivers exactly one
entry: e1..e10 are never delivered at all, let alone first. -/
theorem failed_batch_not_requeued :
    c4AfterFail.buffer = [mkE 11] ∧
    c4AfterFail.errorCount = 0 ∧
    c4AfterFail.totalLogsInserted = 0 ∧
    (flushRun c4AfterFail healthySink []).2 = [[mkE 11]] ∧
    (flushRun c4AfterFail healthySink []).1.totalLogsInserted = 1 := by
  decide

end AuditLog
